import Mathlib

set_option linter.unusedVariables false

/-!
Verification development for the wowapi_py dispatch core.

We give a shallow embedding of the authenticated-request dispatch core:
the sync client (`wowapi_py/api.py`: `method_cache`,
`Api.get_client_credentials_token`, `Api.request`) and the async client
(`wowapi_py/async_api.py`: `AsyncApi._refresh_token`, `AsyncApi.request`).

The HTTP environment is modelled by a `Script`: a stream of outcomes for
token requests (indexed by how many real token requests the instance has
issued so far) and a stream of outcomes for resource sends (indexed by how
many sends the instance has issued so far).  Wall-clock time is a parameter
of each call (`time()` is read at call granularity; neither client sleeps
inside a call).

Exception semantics followed from the source:
  * sync: `response.raise_for_status()` raises `requests.HTTPError` for
    statuses in [400, 600); the 401 retry (api.py lines 169-177) runs inside
    the `except HTTPError` handler, so exceptions it raises are NOT caught
    by the `except RequestException` / `except ValueError` clauses of the
    same `try` and escape raw;
  * sync: `get_client_credentials_token` catches only `OAuth2Error`
    (api.py line 134), so a transport failure during the token request
    escapes raw;
  * async: `response.raise_for_status()` (aiohttp) raises
    `ClientResponseError` for statuses >= 400; the 401 retry
    (async_api.py lines 120-127) runs inside the `try`, so its failures are
    classified by the `except` clauses; `_refresh_token` catches only
    `ClientResponseError` (line 167), so a transport failure
    (`aiohttp.ClientError`) during the token request escapes raw when the
    refresh happens at the expiry check (line 111, outside the `try`).
-/

/-- An OAuth token as stored in the client's token slot.  The sync client
stores the oauthlib response (which carries `expires_at` directly); the
async client recomputes `expires_at := time() + expires_in`
(async_api.py line 166). -/
structure Token where
  accessToken : String
  expiresIn : Int
  expiresAt : Int
deriving DecidableEq

/-- Outcome of one real token request against the OAuth host. -/
inductive TokenResult
  | ok (tok : Token)
  /-- The authorization server rejects the credentials: sync raises
  `OAuth2Error` from `fetch_token`, async gets a 4xx and
  `raise_for_status` raises `ClientResponseError`. -/
  | rejected
  /-- A transport/network failure during the token request: sync raises a
  `requests` transport exception, async raises `aiohttp.ClientError`. -/
  | transportFail
deriving DecidableEq

/-- Outcome of one resource send. -/
inductive SendResult
  | connFail
  | respond (status : Nat) (jsonOk : Bool) (body : Nat)
deriving DecidableEq

/-- The HTTP environment: outcome streams for token requests and sends. -/
structure Script where
  tokenRes : Nat → TokenResult
  sendRes : Nat → SendResult

/-- Everything a dispatch call can terminate with, besides a decoded body.
The `raw*` constructors are exceptions that escape `request` unclassified
(they are not part of the library's error taxonomy). -/
inductive Err
  | invalidRegion
  | authentication
  | resourceNotFound
  | rateLimit
  | apiConnection
  | invalidResponse
  /-- `BlizzardApiException`, the generic base exception, carrying the
  HTTP status that produced it. -/
  | apiException (status : Nat)
  /-- An uncaught `requests.HTTPError` escaping `Api.request`. -/
  | rawHttpError (status : Nat)
  /-- An uncaught `requests` transport exception escaping `Api.request`. -/
  | rawRequestFailure
  /-- An uncaught `aiohttp.ClientError` escaping `AsyncApi.request`. -/
  | rawClientFailure
  /-- An uncaught `ValueError` escaping `Api.request` (JSON decode failure
  on the 401-retry path, api.py line 177). -/
  | rawValueFailure
deriving DecidableEq

/-- The fixed region set checked by both dispatchers
(api.py line 150, async_api.py line 104). -/
def validRegions : List String := ["us", "eu", "tw", "kr", "cn"]

/-- Python-dict lookup on an association list (first binding wins; the
models only ever add a key that is not yet present, matching
`if key not in cache: cache[key] = ...`). -/
def lookupKey {β : Type} (k : String) : List (String × β) → Option β
  | [] => none
  | (k2, v) :: rest => if k2 = k then some v else lookupKey k rest

/-- A single-quote character, for Python `str` renderings. -/
def singleQuote : String := String.singleton (Char.ofNat 39)

/-- The `method_cache` key computed for `get_client_credentials_token
(self, region)`: `str((region,)) + str(sorted({}.items()))`
(api.py line 52). -/
def tokenFetchKey (region : String) : String :=
  "(" ++ singleQuote ++ region ++ singleQuote ++ ",)" ++ "[]"

/-- Per-instance state of the sync client: the token slot (`self.token`;
`none` models the initial empty dict), and counters of real token requests
and sends issued by this instance's session. -/
structure SyncInst where
  token : Option Token
  nFetch : Nat
  nSend : Nat
deriving DecidableEq

/-- The `method_cache` table of `get_client_credentials_token`.  It lives in
the decorator closure (api.py line 48), created once at class-definition
time, so it is NOT part of `SyncInst`: it is threaded separately and can be
shared by several instances. -/
abbrev Cache := List (String × Token)

/-- Result of the memoized token fetch: the returned value or raised
exception, the cache, and the instance state. -/
structure FetchOut where
  result : Except Err Token
  cache : Cache
  inst : SyncInst

/-- Result of a sync dispatch call. -/
structure SyncOut where
  result : Except Err Nat
  cache : Cache
  inst : SyncInst

/-- `Api.get_client_credentials_token` (api.py lines 125-137) together with
its `method_cache` wrapper (lines 47-57): on a cache hit the wrapped
function does not run (no network, no state change); on a miss one real
token request is issued; on success the token is stored in the cache and
in `self.token` (line 132) and returned; `OAuth2Error` is re-raised as
`AuthenticationError` (line 135); a transport failure escapes raw.
Failures are not stored in the cache. -/
def Api.get_client_credentials_token (sc : Script) (region : String)
    (cache : Cache) (inst : SyncInst) : FetchOut :=
  match lookupKey (tokenFetchKey region) cache with
  | some tok => ⟨Except.ok tok, cache, inst⟩
  | none =>
    match sc.tokenRes inst.nFetch with
    | TokenResult.ok tok =>
      ⟨Except.ok tok, (tokenFetchKey region, tok) :: cache,
        { inst with token := some tok, nFetch := inst.nFetch + 1 }⟩
    | TokenResult.rejected =>
      ⟨Except.error Err.authentication, cache, { inst with nFetch := inst.nFetch + 1 }⟩
    | TokenResult.transportFail =>
      ⟨Except.error Err.rawRequestFailure, cache, { inst with nFetch := inst.nFetch + 1 }⟩

/-- The call-site assignment `self.token = self.get_client_credentials_token
(region)` (api.py line 160): on success the returned token is installed in
the slot (a no-op when the wrapped function already installed it, but the
operative write on a cache hit). -/
def Api.installFetched : FetchOut → FetchOut
  | ⟨Except.ok tok, c, i⟩ => ⟨Except.ok tok, c, { i with token := some tok }⟩
  | o => o

/-- The token-validity check of `Api.request` (api.py lines 159-160):
refresh when the slot is empty or `expires_at <= time() + 60`, otherwise
use the cached token. -/
def Api.ensureToken (sc : Script) (now : Int) (region : String)
    (cache : Cache) (inst : SyncInst) : FetchOut :=
  match inst.token with
  | none => Api.installFetched (Api.get_client_credentials_token sc region cache inst)
  | some t =>
    if t.expiresAt ≤ now + 60 then
      Api.installFetched (Api.get_client_credentials_token sc region cache inst)
    else ⟨Except.ok t, cache, inst⟩

/-- The 401 handler of `Api.request` (api.py lines 169-177).  It runs inside
the `except HTTPError` block, so everything it raises escapes the enclosing
`try` unclassified: a transport failure on the retried send escapes raw, a
non-2xx status on the retried send escapes as raw `HTTPError`, and a JSON
decode failure escapes as raw `ValueError`.  The "new" token is obtained
through the memoized `get_client_credentials_token`. -/
def Api.retrySend (sc : Script) (c1 : Cache) (i1 : SyncInst) : SyncOut :=
  match sc.sendRes i1.nSend with
  | SendResult.connFail =>
    ⟨Except.error Err.rawRequestFailure, c1, { i1 with nSend := i1.nSend + 1 }⟩
  | SendResult.respond st2 jsonOk2 body2 =>
    if 400 ≤ st2 ∧ st2 < 600 then
      ⟨Except.error (Err.rawHttpError st2), c1,
        { i1 with nSend := i1.nSend + 1 }⟩
    else if jsonOk2 then
      ⟨Except.ok body2, c1, { i1 with nSend := i1.nSend + 1 }⟩
    else
      ⟨Except.error Err.rawValueFailure, c1, { i1 with nSend := i1.nSend + 1 }⟩

/-- The 401 handler continued: obtain a "new" token through the memoized
`get_client_credentials_token`, then retry the send once. -/
def Api.retryOn401 (sc : Script) (region : String)
    (cache : Cache) (inst : SyncInst) : SyncOut :=
  match Api.installFetched (Api.get_client_credentials_token sc region cache inst) with
  | ⟨Except.error e, c1, i1⟩ => ⟨Except.error e, c1, i1⟩
  | ⟨Except.ok _, c1, i1⟩ => Api.retrySend sc c1 i1

/-- The send-and-classify phase of `Api.request` (api.py lines 164-189):
first send; `raise_for_status` raises for statuses in [400, 600); 401 goes
to the retry handler; 404/429/other are classified; a transport failure on
the first send is `ApiConnectionError`; a JSON decode failure on the first
send is `InvalidResponseError`. -/
def Api.sendAndClassify (sc : Script) (region : String)
    (cache : Cache) (inst : SyncInst) : SyncOut :=
  match sc.sendRes inst.nSend with
  | SendResult.connFail =>
    ⟨Except.error Err.apiConnection, cache, { inst with nSend := inst.nSend + 1 }⟩
  | SendResult.respond st jsonOk body =>
    if 400 ≤ st ∧ st < 600 then
      if st = 401 then
        Api.retryOn401 sc region cache { inst with nSend := inst.nSend + 1 }
      else if st = 404 then
        ⟨Except.error Err.resourceNotFound, cache, { inst with nSend := inst.nSend + 1 }⟩
      else if st = 429 then
        ⟨Except.error Err.rateLimit, cache, { inst with nSend := inst.nSend + 1 }⟩
      else
        ⟨Except.error (Err.apiException st), cache, { inst with nSend := inst.nSend + 1 }⟩
    else if jsonOk then
      ⟨Except.ok body, cache, { inst with nSend := inst.nSend + 1 }⟩
    else
      ⟨Except.error Err.invalidResponse, cache, { inst with nSend := inst.nSend + 1 }⟩

/-- `Api.request` (api.py lines 147-189): validate the region, ensure a
token, then send and classify.  The `method` and `resource` arguments only
feed the URL and error messages, which the model does not observe. -/
def Api.request (sc : Script) (now : Int) (method resource region : String)
    (cache : Cache) (inst : SyncInst) : SyncOut :=
  if region ∈ validRegions then
    match Api.ensureToken sc now region cache inst with
    | ⟨Except.error e, c1, i1⟩ => ⟨Except.error e, c1, i1⟩
    | ⟨Except.ok _, c1, i1⟩ => Api.sendAndClassify sc region c1 i1
  else ⟨Except.error Err.invalidRegion, cache, inst⟩

/-- Per-instance state of the async client. -/
structure AsyncInst where
  token : Option Token
  nFetch : Nat
  nSend : Nat
deriving DecidableEq

/-- Result of a `_refresh_token` call before the caller's context decides
how an escaping exception is classified. -/
inductive RefreshErr
  /-- `AuthenticationError` raised by `_refresh_token` itself
  (async_api.py line 168). -/
  | rejected
  /-- An `aiohttp.ClientError` escaping `_refresh_token`. -/
  | transportFail
deriving DecidableEq

/-- Result of an async dispatch call. -/
structure AsyncOut where
  result : Except Err Nat
  inst : AsyncInst

/-- `AsyncApi._refresh_token` (async_api.py lines 149-168): always performs
a real token request; on success installs `self.token` wholesale from the
response body and sets `expires_at = time() + expires_in` (line 166); a
4xx/5xx on the token request becomes `AuthenticationError`; a transport
failure escapes as `aiohttp.ClientError`. -/
def AsyncApi.refresh_token (sc : Script) (now : Int) (region : String)
    (inst : AsyncInst) : Except RefreshErr Token × AsyncInst :=
  match sc.tokenRes inst.nFetch with
  | TokenResult.ok tok =>
    ⟨Except.ok { accessToken := tok.accessToken, expiresIn := tok.expiresIn,
                 expiresAt := now + tok.expiresIn },
      { token := some { accessToken := tok.accessToken, expiresIn := tok.expiresIn,
                        expiresAt := now + tok.expiresIn },
        nFetch := inst.nFetch + 1, nSend := inst.nSend }⟩
  | TokenResult.rejected =>
    ⟨Except.error RefreshErr.rejected, { inst with nFetch := inst.nFetch + 1 }⟩
  | TokenResult.transportFail =>
    ⟨Except.error RefreshErr.transportFail, { inst with nFetch := inst.nFetch + 1 }⟩

/-- The token-validity check of `AsyncApi.request` (async_api.py lines
109-111): refresh when the slot is empty or `expires_at <= current_time +
60`.  This call site is outside the `try`, so a transport failure during
the refresh escapes raw (`aiohttp.ClientError`), while a rejection is the
`AuthenticationError` raised by `_refresh_token`. -/
def AsyncApi.tagRefresh : Except RefreshErr Token × AsyncInst → Except Err Token × AsyncInst
  | ⟨Except.ok t, i⟩ => ⟨Except.ok t, i⟩
  | ⟨Except.error RefreshErr.rejected, i⟩ => ⟨Except.error Err.authentication, i⟩
  | ⟨Except.error RefreshErr.transportFail, i⟩ => ⟨Except.error Err.rawClientFailure, i⟩

/-- The token-validity check of `AsyncApi.request`, continued: refresh when
the slot is empty or `expires_at <= current_time + 60`. -/
def AsyncApi.ensureToken (sc : Script) (now : Int) (region : String)
    (inst : AsyncInst) : Except Err Token × AsyncInst :=
  match inst.token with
  | none => AsyncApi.tagRefresh (AsyncApi.refresh_token sc now region inst)
  | some t =>
    if t.expiresAt ≤ now + 60 then
      AsyncApi.tagRefresh (AsyncApi.refresh_token sc now region inst)
    else ⟨Except.ok t, inst⟩

/-- The `except aiohttp.ClientResponseError` chain of `AsyncApi.request`
(async_api.py lines 131-143). -/
def classifyAsync (status : Nat) : Err :=
  if status = 401 then Err.authentication
  else if status = 404 then Err.resourceNotFound
  else if status = 429 then Err.rateLimit
  else Err.apiException status

/-- The 401 branch of `AsyncApi.request` (async_api.py lines 120-127).
It runs inside the `try`, so: a rejection during the forced refresh is
`AuthenticationError` (raised by `_refresh_token`, not an aiohttp error, so
it propagates); a transport failure during the forced refresh or the
retried send is caught by `except aiohttp.ClientError` and becomes
`ApiConnectionError`; a status >= 400 on the retried send raises
`ClientResponseError` and is classified, a second 401 giving
`AuthenticationError`; a JSON decode failure is `InvalidResponseError`. -/
def AsyncApi.retrySend (sc : Script) (i1 : AsyncInst) : AsyncOut :=
  match sc.sendRes i1.nSend with
  | SendResult.connFail =>
    ⟨Except.error Err.apiConnection, { i1 with nSend := i1.nSend + 1 }⟩
  | SendResult.respond st2 jsonOk2 body2 =>
    if 400 ≤ st2 then
      ⟨Except.error (classifyAsync st2), { i1 with nSend := i1.nSend + 1 }⟩
    else if jsonOk2 then
      ⟨Except.ok body2, { i1 with nSend := i1.nSend + 1 }⟩
    else
      ⟨Except.error Err.invalidResponse, { i1 with nSend := i1.nSend + 1 }⟩

/-- The 401 branch continued: force a real refresh, then retry the send
once, classifying the second response. -/
def AsyncApi.retryOn401 (sc : Script) (now : Int) (region : String)
    (inst : AsyncInst) : AsyncOut :=
  match AsyncApi.refresh_token sc now region inst with
  | ⟨Except.error RefreshErr.rejected, i1⟩ => ⟨Except.error Err.authentication, i1⟩
  | ⟨Except.error RefreshErr.transportFail, i1⟩ => ⟨Except.error Err.apiConnection, i1⟩
  | ⟨Except.ok _, i1⟩ => AsyncApi.retrySend sc i1

/-- The send-and-classify phase of `AsyncApi.request` (async_api.py lines
118-147): first send; an explicit `if response.status == 401` goes to the
forced-refresh-and-retry branch before `raise_for_status`; otherwise
`raise_for_status` (aiohttp: raises for every status >= 400) feeds the
classification chain; a transport failure is `ApiConnectionError`; a JSON
decode failure is `InvalidResponseError`. -/
def AsyncApi.sendAndClassify (sc : Script) (now : Int) (region : String)
    (inst : AsyncInst) : AsyncOut :=
  match sc.sendRes inst.nSend with
  | SendResult.connFail =>
    ⟨Except.error Err.apiConnection, { inst with nSend := inst.nSend + 1 }⟩
  | SendResult.respond st jsonOk body =>
    if st = 401 then
      AsyncApi.retryOn401 sc now region { inst with nSend := inst.nSend + 1 }
    else if 400 ≤ st then
      ⟨Except.error (classifyAsync st), { inst with nSend := inst.nSend + 1 }⟩
    else if jsonOk then
      ⟨Except.ok body, { inst with nSend := inst.nSend + 1 }⟩
    else
      ⟨Except.error Err.invalidResponse, { inst with nSend := inst.nSend + 1 }⟩

/-- `AsyncApi.request` (async_api.py lines 101-147): validate the region,
ensure a token, then send and classify. -/
def AsyncApi.request (sc : Script) (now : Int) (method resource region : String)
    (inst : AsyncInst) : AsyncOut :=
  if region ∈ validRegions then
    match AsyncApi.ensureToken sc now region inst with
    | ⟨Except.error e, i1⟩ => ⟨Except.error e, i1⟩
    | ⟨Except.ok _, i1⟩ => AsyncApi.sendAndClassify sc now region i1
  else ⟨Except.error Err.invalidRegion, inst⟩

/-- State seen by a memoized method: the closure-held cache, the wrapped
object's own state, and a count of how many times the wrapped function has
actually run. -/
structure MemoState (σ : Type) where
  cache : List (String × Nat)
  inner : σ
  execCount : Nat

/-- The `method_cache` decorator (api.py lines 47-57, wow_game_data.py
lines 9-19): `key` is the string serialization of the argument list; on a
hit the stored value is returned and the wrapped function does not run; on
a miss the wrapped function runs, and its result is stored only if it
returns normally (an exception leaves the cache untouched). -/
def method_cache {σ : Type} (key : List Nat → String)
    (op : List Nat → σ → Except Unit Nat × σ)
    (args : List Nat) (m : MemoState σ) : Except Unit Nat × MemoState σ :=
  match lookupKey (key args) m.cache with
  | some v => ⟨Except.ok v, m⟩
  | none =>
    match op args m.inner with
    | ⟨Except.ok v, s⟩ =>
      ⟨Except.ok v,
        { cache := (key args, v) :: m.cache, inner := s, execCount := m.execCount + 1 }⟩
    | ⟨Except.error e, s⟩ =>
      ⟨Except.error e,
        { cache := m.cache, inner := s, execCount := m.execCount + 1 }⟩

/-! ### Concrete fixtures used by counterexamples and witnesses -/

/-- A token as the sync OAuth library returns it for a fetch at time 0 with
`expires_in = 3600` (oauthlib sets `expires_at = time() + expires_in`). -/
def tokA : Token := { accessToken := "t0", expiresIn := 3600, expiresAt := 3600 }

/-- A long-lived token. -/
def tokB : Token := { accessToken := "t1", expiresIn := 3600, expiresAt := 999999 }

/-- A fresh client instance: empty token slot, no network traffic yet. -/
def initSync : SyncInst := { token := none, nFetch := 0, nSend := 0 }

/-- A fresh async client instance. -/
def initAsync : AsyncInst := { token := none, nFetch := 0, nSend := 0 }

/-- An environment where every token request succeeds and every resource
send returns HTTP 401. -/
def script401 : Script :=
  { tokenRes := fun _ => TokenResult.ok tokA
    sendRes := fun _ => SendResult.respond 401 true 0 }

/-! ### C1 -/

/-- C1: the claim says a dispatch call whose first send returns 401 forces
exactly one token refresh, retries once, and a second 401 terminates with
`AuthenticationError` after exactly 2 sends and 2 token fetches.  The async
dispatcher does behave this way, but the sync dispatcher does not: its
forced refresh goes through the memoized `get_client_credentials_token`, so
the retry reuses the originally fetched token (1 real token fetch in
total), and the second 401 is raised by `raise_for_status` inside the
`except HTTPError` handler, escaping as a raw `requests.HTTPError` instead
of `AuthenticationError`.  This theorem evaluates both dispatchers at the
failing input (every send returns 401, token requests succeed). -/
theorem c1_sync_401_retry_bug :
    (Api.request script401 0 "GET" "/r" "eu" [] initSync).result
        = Except.error (Err.rawHttpError 401)
    ∧ (Api.request script401 0 "GET" "/r" "eu" [] initSync).inst.nFetch = 1
    ∧ (Api.request script401 0 "GET" "/r" "eu" [] initSync).inst.nSend = 2
    ∧ (AsyncApi.request script401 0 "GET" "/r" "eu" initAsync).result
        = Except.error Err.authentication
    ∧ (AsyncApi.request script401 0 "GET" "/r" "eu" initAsync).inst.nFetch = 2
    ∧ (AsyncApi.request script401 0 "GET" "/r" "eu" initAsync).inst.nSend = 2 :=
  ⟨rfl, rfl, rfl, rfl, rfl, rfl⟩

/-! ### C5 -/

/-- C5: for every region code outside {us, eu, tw, kr, cn}, both dispatchers
raise `InvalidRegionError` before any network activity: the state (token
slot, memoization cache, token-request counter, send counter) is returned
untouched. -/
theorem c5_invalid_region_no_network
    (sc : Script) (now : Int) (method resource region : String)
    (cache : Cache) (si : SyncInst) (ai : AsyncInst)
    (h : region ∉ validRegions) :
    Api.request sc now method resource region cache si
        = ⟨Except.error Err.invalidRegion, cache, si⟩
    ∧ AsyncApi.request sc now method resource region ai
        = ⟨Except.error Err.invalidRegion, ai⟩
    ∧ (Api.request sc now method resource region cache si).inst.nFetch = si.nFetch
    ∧ (Api.request sc now method resource region cache si).inst.nSend = si.nSend
    ∧ (AsyncApi.request sc now method resource region ai).inst.nFetch = ai.nFetch
    ∧ (AsyncApi.request sc now method resource region ai).inst.nSend = ai.nSend := by
  refine ⟨?_, ?_, ?_, ?_, ?_, ?_⟩ <;> simp [Api.request, AsyncApi.request, h]

/-- Witness for C5 at the concrete region code "xx". -/
theorem c5_witness :
    ("xx" ∉ validRegions)
    ∧ Api.request script401 0 "GET" "/r" "xx" [] initSync
        = ⟨Except.error Err.invalidRegion, [], initSync⟩
    ∧ AsyncApi.request script401 0 "GET" "/r" "xx" initAsync
        = ⟨Except.error Err.invalidRegion, initAsync⟩ := by
  have h : "xx" ∉ validRegions := by decide
  have h2 := c5_invalid_region_no_network script401 0 "GET" "/r" "xx" [] initSync initAsync h
  exact ⟨h, h2.1, h2.2.1⟩

/-! ### C3 -/

/-- An environment where every token request fails with a transport error. -/
def scriptNetFail : Script :=
  { tokenRes := fun _ => TokenResult.transportFail
    sendRes := fun _ => SendResult.connFail }

/-- An environment where the authorization server rejects every token
request. -/
def scriptReject : Script :=
  { tokenRes := fun _ => TokenResult.rejected
    sendRes := fun _ => SendResult.respond 200 true 0 }

/-- C3 counterexample: the claim says every token-fetch failure — including
a transport/network failure — surfaces as `AuthenticationError`.  In fact a
transport failure during the token request escapes unwrapped in both
clients: the sync `get_client_credentials_token` catches only
`OAuth2Error`, and the async `_refresh_token` catches only
`ClientResponseError`. -/
theorem c3_transport_escapes_raw :
    (Api.request scriptNetFail 0 "GET" "/r" "eu" [] initSync).result
        = Except.error Err.rawRequestFailure
    ∧ (Api.request scriptNetFail 0 "GET" "/r" "eu" [] initSync).result
        ≠ Except.error Err.authentication
    ∧ (AsyncApi.request scriptNetFail 0 "GET" "/r" "eu" initAsync).result
        = Except.error Err.rawClientFailure
    ∧ (AsyncApi.request scriptNetFail 0 "GET" "/r" "eu" initAsync).result
        ≠ Except.error Err.authentication := by
  refine ⟨rfl, ?_, rfl, ?_⟩ <;>
    · intro h
      injection h with h2
      exact absurd h2 (by decide)

/-- C3 (amended): when the token fetch is needed (empty slot, no cached
entry for the region), a rejection by the authorization server raises
`AuthenticationError` in both clients, while a transport failure during the
token request escapes as the raw transport exception (sync: a `requests`
exception; async: an `aiohttp.ClientError`), not as `AuthenticationError`.
In every case exactly one token request is issued and no resource send
occurs. -/
theorem c3_token_fetch_errors_amended
    (sc : Script) (now : Int) (method resource region : String)
    (cache : Cache) (si : SyncInst) (ai : AsyncInst)
    (hr : region ∈ validRegions)
    (hsi : si.token = none) (hai : ai.token = none)
    (hmiss : lookupKey (tokenFetchKey region) cache = none) :
    (sc.tokenRes si.nFetch = TokenResult.rejected →
        Api.request sc now method resource region cache si
          = ⟨Except.error Err.authentication, cache, { si with nFetch := si.nFetch + 1 }⟩)
    ∧ (sc.tokenRes si.nFetch = TokenResult.transportFail →
        Api.request sc now method resource region cache si
          = ⟨Except.error Err.rawRequestFailure, cache, { si with nFetch := si.nFetch + 1 }⟩)
    ∧ (sc.tokenRes ai.nFetch = TokenResult.rejected →
        AsyncApi.request sc now method resource region ai
          = ⟨Except.error Err.authentication, { ai with nFetch := ai.nFetch + 1 }⟩)
    ∧ (sc.tokenRes ai.nFetch = TokenResult.transportFail →
        AsyncApi.request sc now method resource region ai
          = ⟨Except.error Err.rawClientFailure, { ai with nFetch := ai.nFetch + 1 }⟩) := by
  refine ⟨fun h => ?_, fun h => ?_, fun h => ?_, fun h => ?_⟩ <;>
    simp [Api.request, AsyncApi.request, Api.ensureToken, AsyncApi.ensureToken,
      Api.get_client_credentials_token, AsyncApi.refresh_token, Api.installFetched,
      AsyncApi.tagRefresh, hr, hsi, hai, hmiss, h]

/-- Witness for C3 at concrete inputs: a rejected token request and a
transport failure, each against both clients. -/
theorem c3_witness :
    Api.request scriptReject 0 "GET" "/r" "us" [] initSync
        = ⟨Except.error Err.authentication, [], { initSync with nFetch := 1 }⟩
    ∧ AsyncApi.request scriptReject 0 "GET" "/r" "us" initAsync
        = ⟨Except.error Err.authentication, { initAsync with nFetch := 1 }⟩
    ∧ Api.request scriptNetFail 0 "GET" "/r" "us" [] initSync
        = ⟨Except.error Err.rawRequestFailure, [], { initSync with nFetch := 1 }⟩
    ∧ AsyncApi.request scriptNetFail 0 "GET" "/r" "us" initAsync
        = ⟨Except.error Err.rawClientFailure, { initAsync with nFetch := 1 }⟩ := by
  have hA := c3_token_fetch_errors_amended scriptReject 0 "GET" "/r" "us" [] initSync
    initAsync (by decide) rfl rfl rfl
  have hB := c3_token_fetch_errors_amended scriptNetFail 0 "GET" "/r" "us" [] initSync
    initAsync (by decide) rfl rfl rfl
  exact ⟨hA.1 rfl, hA.2.2.1 rfl, hB.2.1 rfl, hB.2.2.2 rfl⟩

/-! ### Cache-hit lemmas for the sync client -/

/-- On a cache hit the memoized token fetch returns the stored token and
performs no network activity and no state change. -/
theorem Api.fetch_hit (sc : Script) (region : String) (cache : Cache)
    (inst : SyncInst) (tk : Token)
    (hhit : lookupKey (tokenFetchKey region) cache = some tk) :
    Api.get_client_credentials_token sc region cache inst = ⟨Except.ok tk, cache, inst⟩ := by
  simp [Api.get_client_credentials_token, hhit]

/-- The retried send never touches the token slot or the token-request
counter, and leaves the cache unchanged: only the send counter advances. -/
theorem Api.retrySend_fields (sc : Script) (c1 : Cache) (i1 : SyncInst) :
    (Api.retrySend sc c1 i1).cache = c1
    ∧ (Api.retrySend sc c1 i1).inst.token = i1.token
    ∧ (Api.retrySend sc c1 i1).inst.nFetch = i1.nFetch
    ∧ (Api.retrySend sc c1 i1).inst.nSend = i1.nSend + 1 := by
  unfold Api.retrySend
  cases h : sc.sendRes i1.nSend with
  | connFail => simp [h]
  | respond st j b =>
    simp only [h]
    split_ifs <;> simp

/-- On a cache hit the 401 retry handler issues no token request, leaves
the cache unchanged, installs the stored token, and issues exactly one
(retried) send. -/
theorem Api.retry_hit (sc : Script) (region : String) (cache : Cache)
    (inst : SyncInst) (tk : Token)
    (hhit : lookupKey (tokenFetchKey region) cache = some tk) :
    (Api.retryOn401 sc region cache inst).cache = cache
    ∧ (Api.retryOn401 sc region cache inst).inst.nFetch = inst.nFetch
    ∧ (Api.retryOn401 sc region cache inst).inst.token = some tk
    ∧ (Api.retryOn401 sc region cache inst).inst.nSend = inst.nSend + 1 := by
  unfold Api.retryOn401
  rw [Api.fetch_hit sc region cache inst tk hhit]
  simp only [Api.installFetched]
  obtain ⟨hc, ht, hf, hs⟩ := Api.retrySend_fields sc cache { inst with token := some tk }
  exact ⟨hc, by simpa using hf, by simpa using ht, by simpa using hs⟩

/-- On a cache hit the token-validity step never issues a token request:
whatever the expiry situation, it succeeds with some token, leaves the
cache and the counters unchanged, and the slot ends up holding the token
it returns. -/
theorem Api.ensure_hit (sc : Script) (now : Int) (region : String)
    (cache : Cache) (inst : SyncInst) (tk : Token)
    (hhit : lookupKey (tokenFetchKey region) cache = some tk) :
    ∃ t, Api.ensureToken sc now region cache inst
        = ⟨Except.ok t, cache, { inst with token := some t }⟩
      ∧ (some t = inst.token ∨ t = tk) := by
  obtain ⟨tok, nf, ns⟩ := inst
  cases tok with
  | none =>
    refine ⟨tk, ?_, Or.inr rfl⟩
    simp [Api.ensureToken, Api.fetch_hit sc region cache ⟨none, nf, ns⟩ tk hhit,
      Api.installFetched]
  | some t =>
    by_cases hexp : t.expiresAt ≤ now + 60
    · refine ⟨tk, ?_, Or.inr rfl⟩
      simp [Api.ensureToken, hexp, Api.fetch_hit sc region cache ⟨some t, nf, ns⟩ tk hhit,
        Api.installFetched]
    · exact ⟨t, by simp [Api.ensureToken, hexp], Or.inl rfl⟩

/-- On a cache hit the whole send-and-classify phase issues no token
request and leaves the cache unchanged; the slot either keeps its value or
ends up holding the stored token. -/
theorem Api.send_hit (sc : Script) (region : String) (cache : Cache)
    (inst : SyncInst) (tk : Token)
    (hhit : lookupKey (tokenFetchKey region) cache = some tk) :
    (Api.sendAndClassify sc region cache inst).cache = cache
    ∧ (Api.sendAndClassify sc region cache inst).inst.nFetch = inst.nFetch
    ∧ ((Api.sendAndClassify sc region cache inst).inst.token = inst.token
        ∨ (Api.sendAndClassify sc region cache inst).inst.token = some tk) := by
  unfold Api.sendAndClassify
  cases h : sc.sendRes inst.nSend with
  | connFail => simp [h]
  | respond st j b =>
    simp only [h]
    split_ifs with h1 h2 h3 h4
    · obtain ⟨hc, hf, ht, _⟩ :=
        Api.retry_hit sc region cache { inst with nSend := inst.nSend + 1 } tk hhit
      exact ⟨hc, hf, Or.inr ht⟩
    all_goals simp

/-! ### C10 -/

/-- C10: in the sync client, once a token has been fetched for a region
(the memoization cache of `get_client_credentials_token` holds an entry for
it), no later call — including the forced refresh on a 401 — issues a real
token request: every such call returns the originally stored token
unchanged, the cache never changes, and the slot ends up holding either its
previous value or the originally stored token. -/
theorem c10_memoized_token_fetch
    (sc : Script) (now : Int) (method resource region : String)
    (cache : Cache) (si : SyncInst) (tk : Token)
    (hhit : lookupKey (tokenFetchKey region) cache = some tk) :
    Api.get_client_credentials_token sc region cache si = ⟨Except.ok tk, cache, si⟩
    ∧ (Api.request sc now method resource region cache si).inst.nFetch = si.nFetch
    ∧ (Api.request sc now method resource region cache si).cache = cache
    ∧ ((Api.request sc now method resource region cache si).inst.token = si.token
        ∨ (Api.request sc now method resource region cache si).inst.token = some tk) := by
  refine ⟨Api.fetch_hit sc region cache si tk hhit, ?_⟩
  unfold Api.request
  by_cases hr : region ∈ validRegions
  · rw [if_pos hr]
    obtain ⟨t, heq, hor⟩ := Api.ensure_hit sc now region cache si tk hhit
    rw [heq]
    obtain ⟨hc, hf, ht⟩ :=
      Api.send_hit sc region cache { si with token := some t } tk hhit
    refine ⟨by simpa using hf, hc, ?_⟩
    rcases ht with ht | ht
    · simp only [ht]
      rcases hor with hor | hor
      · exact Or.inl hor
      · exact Or.inr (by rw [hor])
    · exact Or.inr ht
  · rw [if_neg hr]
    simp

/-- Witness for C10: a cache already holding a token for "eu"; a dispatch
call in an environment whose sends all return 401 still issues no token
request. -/
theorem c10_witness :
    lookupKey (tokenFetchKey "eu") [(tokenFetchKey "eu", tokB)] = some tokB
    ∧ Api.get_client_credentials_token script401 "eu" [(tokenFetchKey "eu", tokB)] initSync
        = ⟨Except.ok tokB, [(tokenFetchKey "eu", tokB)], initSync⟩
    ∧ (Api.request script401 0 "GET" "/r" "eu" [(tokenFetchKey "eu", tokB)] initSync).inst.nFetch
        = 0 := by
  have h := c10_memoized_token_fetch script401 0 "GET" "/r" "eu"
    [(tokenFetchKey "eu", tokB)] initSync tokB (by simp [lookupKey])
  exact ⟨by simp [lookupKey], h.1, h.2.1⟩

/-! ### Helper lemmas for the async client -/

/-- With a still-valid token the async validity step is a no-op. -/
theorem AsyncApi.ensure_valid_async (sc : Script) (now : Int) (region : String)
    (ai : AsyncInst) (t : Token)
    (ha : ai.token = some t) (hv : ¬ t.expiresAt ≤ now + 60) :
    AsyncApi.ensureToken sc now region ai = ⟨Except.ok t, ai⟩ := by
  simp [AsyncApi.ensureToken, ha, hv]

/-- With an expired (or absent-validity) token and a successful token
request, the async validity step installs a complete fresh token with
`expires_at = now + expires_in`. -/
theorem AsyncApi.ensure_refresh_ok (sc : Script) (now : Int) (region : String)
    (ai : AsyncInst) (t tok2 : Token)
    (ha : ai.token = some t) (hv : t.expiresAt ≤ now + 60)
    (hf : sc.tokenRes ai.nFetch = TokenResult.ok tok2) :
    AsyncApi.ensureToken sc now region ai
      = ⟨Except.ok ⟨tok2.accessToken, tok2.expiresIn, now + tok2.expiresIn⟩,
          { token := some ⟨tok2.accessToken, tok2.expiresIn, now + tok2.expiresIn⟩,
            nFetch := ai.nFetch + 1, nSend := ai.nSend }⟩ := by
  simp [AsyncApi.ensureToken, AsyncApi.refresh_token, AsyncApi.tagRefresh, ha, hv, hf]

/-- A first send with a non-401 response never touches the token slot or
the token-request counter: only the send counter advances. -/
theorem AsyncApi.send_non401 (sc : Script) (now : Int) (region : String)
    (ai : AsyncInst) (st : Nat) (j : Bool) (b : Nat)
    (hsend : sc.sendRes ai.nSend = SendResult.respond st j b) (hst : st ≠ 401) :
    (AsyncApi.sendAndClassify sc now region ai).inst = { ai with nSend := ai.nSend + 1 } := by
  unfold AsyncApi.sendAndClassify
  simp only [hsend, hst, if_false, if_neg hst]
  split_ifs <;> rfl

/-! ### C4 -/

/-- An environment with one fixed successful token (`tokA`, issued at time
0 with `expires_in = 3600`, so `expires_at = 3600`) and 200 responses. -/
def scriptC4 : Script :=
  { tokenRes := fun _ => TokenResult.ok tokA
    sendRes := fun _ => SendResult.respond 200 true 5 }

/-- C4 counterexample: the claim says the first dispatch call more than
3540 seconds after a token was obtained with `expires_in = 3600` triggers
exactly one refresh that installs a new valid token.  In the sync client it
does not: the call at time 3600 sees the token past expiry-minus-skew, but
the "refresh" is served from the memoization cache, so no token request is
issued and the original, already-expired token is installed again. -/
theorem c4_sync_stale_refresh :
    (Api.request scriptC4 0 "GET" "/r" "eu" [] initSync).inst.nFetch = 1
    ∧ (Api.request scriptC4 0 "GET" "/r" "eu" [] initSync).inst.token = some tokA
    ∧ tokA.expiresAt ≤ 3600 + 60
    ∧ (Api.request scriptC4 3600 "GET" "/r" "eu"
          (Api.request scriptC4 0 "GET" "/r" "eu" [] initSync).cache
          (Api.request scriptC4 0 "GET" "/r" "eu" [] initSync).inst).inst.nFetch = 1
    ∧ (Api.request scriptC4 3600 "GET" "/r" "eu"
          (Api.request scriptC4 0 "GET" "/r" "eu" [] initSync).cache
          (Api.request scriptC4 0 "GET" "/r" "eu" [] initSync).inst).inst.token
        = some tokA := by
  exact ⟨rfl, rfl, by decide, rfl, rfl⟩

/-- C4 (amended): in both clients a cached token is treated as valid
exactly when `expires_at > now + 60`.  In the async client a token obtained
at time `tfetch` with `expires_in = 3600` (so `expires_at = tfetch + 3600`)
is reused without any token request by every call issued before
`tfetch + 3540`, and the first call at or after that issues exactly one
token request, installing a complete fresh token with
`expires_at = now + expires_in` (valid whenever `expires_in > 60`).  In the
sync client the reuse also holds, but the post-expiry call issues no token
request at all and re-installs the originally cached token (the refresh is
memoized).  (The first-send hypothesis excludes a 401 response, which would
force an additional refresh in the async client.) -/
theorem c4_token_validity_amended
    (sc : Script) (now tfetch : Int) (method resource region : String)
    (cache : Cache) (si : SyncInst) (ai : AsyncInst) (t tok2 : Token)
    (hr : region ∈ validRegions)
    (hs : si.token = some t)
    (hcache : lookupKey (tokenFetchKey region) cache = some t)
    (ha : ai.token = some t)
    (hT : t.expiresAt = tfetch + 3600)
    (st : Nat) (j : Bool) (b : Nat)
    (hsend : sc.sendRes ai.nSend = SendResult.respond st j b)
    (hst : st ≠ 401) :
    ((Api.request sc now method resource region cache si).inst.nFetch = si.nFetch
      ∧ (Api.request sc now method resource region cache si).inst.token = some t)
    ∧ (now < tfetch + 3540 →
        (AsyncApi.request sc now method resource region ai).inst.nFetch = ai.nFetch
        ∧ (AsyncApi.request sc now method resource region ai).inst.token = some t)
    ∧ (tfetch + 3540 ≤ now →
        sc.tokenRes ai.nFetch = TokenResult.ok tok2 →
        (AsyncApi.request sc now method resource region ai).inst.nFetch = ai.nFetch + 1
        ∧ (AsyncApi.request sc now method resource region ai).inst.token
            = some ⟨tok2.accessToken, tok2.expiresIn, now + tok2.expiresIn⟩
        ∧ (60 < tok2.expiresIn →
            now + 60 < (Token.mk tok2.accessToken tok2.expiresIn (now + tok2.expiresIn)).expiresAt)) := by
  refine ⟨?_, ?_, ?_⟩
  · unfold Api.request
    rw [if_pos hr]
    obtain ⟨t2, heq, hor⟩ := Api.ensure_hit sc now region cache si t hcache
    have ht2 : t2 = t := by
      rcases hor with h | h
      · rw [hs] at h
        exact Option.some.inj h
      · exact h
    subst ht2
    rw [heq]
    obtain ⟨hc, hf, ht⟩ := Api.send_hit sc region cache { si with token := some t2 } t2 hcache
    refine ⟨by simpa using hf, ?_⟩
    rcases ht with ht | ht
    · simpa using ht
    · exact ht
  · intro hlt
    have hv : ¬ t.expiresAt ≤ now + 60 := by rw [hT]; omega
    unfold AsyncApi.request
    rw [if_pos hr, AsyncApi.ensure_valid_async sc now region ai t ha hv]
    rw [AsyncApi.send_non401 sc now region ai st j b hsend hst]
    exact ⟨rfl, ha⟩
  · intro hge hfetch
    have hv : t.expiresAt ≤ now + 60 := by rw [hT]; omega
    unfold AsyncApi.request
    rw [if_pos hr, AsyncApi.ensure_refresh_ok sc now region ai t tok2 ha hv hfetch]
    rw [AsyncApi.send_non401 sc now region
      { token := some ⟨tok2.accessToken, tok2.expiresIn, now + tok2.expiresIn⟩,
        nFetch := ai.nFetch + 1, nSend := ai.nSend } st j b hsend hst]
    exact ⟨rfl, rfl, fun h => by simp only [Token.mk.injEq]; omega⟩

/-- Witness for C4: token `tokA` fetched at time 0; a call at time 100
reuses it in both clients; the async call at time 3540 refreshes once and
installs a fresh token with `expires_at = 3540 + 3600`. -/
theorem c4_witness :
    ((Api.request scriptC4 100 "GET" "/r" "eu" [(tokenFetchKey "eu", tokA)]
        ⟨some tokA, 1, 0⟩).inst.nFetch = 1
      ∧ (Api.request scriptC4 100 "GET" "/r" "eu" [(tokenFetchKey "eu", tokA)]
        ⟨some tokA, 1, 0⟩).inst.token = some tokA)
    ∧ ((AsyncApi.request scriptC4 100 "GET" "/r" "eu" ⟨some tokA, 1, 0⟩).inst.nFetch = 1
      ∧ (AsyncApi.request scriptC4 100 "GET" "/r" "eu" ⟨some tokA, 1, 0⟩).inst.token
          = some tokA)
    ∧ ((AsyncApi.request scriptC4 3540 "GET" "/r" "eu" ⟨some tokA, 1, 0⟩).inst.nFetch = 2
      ∧ (AsyncApi.request scriptC4 3540 "GET" "/r" "eu" ⟨some tokA, 1, 0⟩).inst.token
          = some ⟨tokA.accessToken, tokA.expiresIn, 3540 + tokA.expiresIn⟩) := by
  have h1 := c4_token_validity_amended scriptC4 100 0 "GET" "/r" "eu"
    [(tokenFetchKey "eu", tokA)] ⟨some tokA, 1, 0⟩ ⟨some tokA, 1, 0⟩ tokA tokA
    (by decide) rfl (by simp [lookupKey]) rfl (by decide) 200 true 5 rfl (by decide)
  have h2 := c4_token_validity_amended scriptC4 3540 0 "GET" "/r" "eu"
    [(tokenFetchKey "eu", tokA)] ⟨some tokA, 1, 0⟩ ⟨some tokA, 1, 0⟩ tokA tokA
    (by decide) rfl (by simp [lookupKey]) rfl (by decide) 200 true 5 rfl (by decide)
  have hA1 := h1.2.1 (by norm_num)
  have hA2 := h2.2.2 (by norm_num) rfl
  exact ⟨h1.1, ⟨hA1.1, hA1.2⟩, ⟨hA2.1, hA2.2.1⟩⟩

/-! ### Valid-token and non-401 classification lemmas -/

/-- With a still-valid token the sync validity step is a no-op. -/
theorem Api.ensure_valid (sc : Script) (now : Int) (region : String)
    (cache : Cache) (inst : SyncInst) (t : Token)
    (hs : inst.token = some t) (hv : ¬ t.expiresAt ≤ now + 60) :
    Api.ensureToken sc now region cache inst = ⟨Except.ok t, cache, inst⟩ := by
  simp [Api.ensureToken, hs, hv]

/-- With an empty slot the sync validity step is the memoized fetch plus
the call-site assignment. -/
theorem Api.ensureToken_none (sc : Script) (now : Int) (region : String)
    (cache : Cache) (inst : SyncInst) (h : inst.token = none) :
    Api.ensureToken sc now region cache inst
      = Api.installFetched (Api.get_client_credentials_token sc region cache inst) := by
  unfold Api.ensureToken
  rw [h]

/-- With an expired token the sync validity step is the memoized fetch plus
the call-site assignment. -/
theorem Api.ensureToken_expired (sc : Script) (now : Int) (region : String)
    (cache : Cache) (inst : SyncInst) (t : Token)
    (h : inst.token = some t) (hexp : t.expiresAt ≤ now + 60) :
    Api.ensureToken sc now region cache inst
      = Api.installFetched (Api.get_client_credentials_token sc region cache inst) := by
  unfold Api.ensureToken
  rw [h]
  simp [hexp]

/-- Closed form of the sync send phase on a non-401 response: the
classification is a pure function of the status (and of JSON
decodability below 400/at 600 and above), the cache and the token-request
counter are untouched, and exactly one send is issued. -/
theorem Api.send_non401_cases (sc : Script) (region : String)
    (cache : Cache) (inst : SyncInst) (st : Nat) (j : Bool) (b : Nat)
    (hsend : sc.sendRes inst.nSend = SendResult.respond st j b) (hst : st ≠ 401) :
    Api.sendAndClassify sc region cache inst
      = ⟨(if 400 ≤ st ∧ st < 600 then
            if st = 404 then Except.error Err.resourceNotFound
            else if st = 429 then Except.error Err.rateLimit
            else Except.error (Err.apiException st)
          else if j then Except.ok b else Except.error Err.invalidResponse),
          cache, { inst with nSend := inst.nSend + 1 }⟩ := by
  unfold Api.sendAndClassify
  simp only [hsend]
  split_ifs <;> simp_all

/-- Closed form of the async send phase on a non-401 response. -/
theorem AsyncApi.send_non401_cases_async (sc : Script) (now : Int) (region : String)
    (ai : AsyncInst) (st : Nat) (j : Bool) (b : Nat)
    (hsend : sc.sendRes ai.nSend = SendResult.respond st j b) (hst : st ≠ 401) :
    AsyncApi.sendAndClassify sc now region ai
      = ⟨(if 400 ≤ st then Except.error (classifyAsync st)
          else if j then Except.ok b else Except.error Err.invalidResponse),
          { ai with nSend := ai.nSend + 1 }⟩ := by
  unfold AsyncApi.sendAndClassify
  simp only [hsend]
  split_ifs <;> simp_all

/-! ### C6 -/

/-- C6 (amended): with a valid token, a first-send status of 404 yields
`ResourceNotFoundError` and 429 yields `RateLimitError` in both clients;
every other status in 400..599 except 401 yields the generic base
exception carrying the status; and no non-401 status triggers a token
refresh or a retried send (the token-request counter is unchanged and
exactly one send is issued).  A non-2xx status outside 400..599 (e.g. a
3xx that surfaces) is NOT classified as an error by the code: its body is
decoded like a success (see the counterexample). -/
theorem c6_status_classification_amended
    (sc : Script) (now : Int) (method resource region : String)
    (cache : Cache) (si : SyncInst) (ai : AsyncInst) (t : Token)
    (st : Nat) (j : Bool) (b : Nat)
    (hr : region ∈ validRegions)
    (hs : si.token = some t) (ha : ai.token = some t)
    (hv : ¬ t.expiresAt ≤ now + 60)
    (hsendS : sc.sendRes si.nSend = SendResult.respond st j b)
    (hsendA : sc.sendRes ai.nSend = SendResult.respond st j b) :
    (st = 404 →
        (Api.request sc now method resource region cache si).result
          = Except.error Err.resourceNotFound
        ∧ (AsyncApi.request sc now method resource region ai).result
          = Except.error Err.resourceNotFound)
    ∧ (st = 429 →
        (Api.request sc now method resource region cache si).result
          = Except.error Err.rateLimit
        ∧ (AsyncApi.request sc now method resource region ai).result
          = Except.error Err.rateLimit)
    ∧ (400 ≤ st → st < 600 → st ≠ 401 → st ≠ 404 → st ≠ 429 →
        (Api.request sc now method resource region cache si).result
          = Except.error (Err.apiException st)
        ∧ (AsyncApi.request sc now method resource region ai).result
          = Except.error (Err.apiException st))
    ∧ (st ≠ 401 →
        (Api.request sc now method resource region cache si).inst.nFetch = si.nFetch
        ∧ (Api.request sc now method resource region cache si).inst.nSend = si.nSend + 1
        ∧ (Api.request sc now method resource region cache si).cache = cache
        ∧ (AsyncApi.request sc now method resource region ai).inst.nFetch = ai.nFetch
        ∧ (AsyncApi.request sc now method resource region ai).inst.nSend = ai.nSend + 1) := by
  have hreqS : Api.request sc now method resource region cache si
      = Api.sendAndClassify sc region cache si := by
    unfold Api.request
    rw [if_pos hr, Api.ensure_valid sc now region cache si t hs hv]
  have hreqA : AsyncApi.request sc now method resource region ai
      = AsyncApi.sendAndClassify sc now region ai := by
    unfold AsyncApi.request
    rw [if_pos hr, AsyncApi.ensure_valid_async sc now region ai t ha hv]
  refine ⟨fun h => ?_, fun h => ?_, fun h4 h6 h401 h404 h429 => ?_, fun h401 => ?_⟩
  · subst h
    rw [hreqS, Api.send_non401_cases sc region cache si 404 j b hsendS (by decide),
      hreqA, AsyncApi.send_non401_cases_async sc now region ai 404 j b hsendA (by decide)]
    refine ⟨by norm_num, by norm_num [classifyAsync]⟩
  · subst h
    rw [hreqS, Api.send_non401_cases sc region cache si 429 j b hsendS (by decide),
      hreqA, AsyncApi.send_non401_cases_async sc now region ai 429 j b hsendA (by decide)]
    refine ⟨by norm_num, by norm_num [classifyAsync]⟩
  · rw [hreqS, Api.send_non401_cases sc region cache si st j b hsendS h401,
      hreqA, AsyncApi.send_non401_cases_async sc now region ai st j b hsendA h401]
    refine ⟨by simp [h4, h6, h404, h429], by simp [h4, classifyAsync, h401, h404, h429]⟩
  · rw [hreqS, Api.send_non401_cases sc region cache si st j b hsendS h401,
      hreqA, AsyncApi.send_non401_cases_async sc now region ai st j b hsendA h401]
    exact ⟨rfl, rfl, rfl, rfl, rfl⟩

/-- An environment whose sends return HTTP 304 with a decodable body. -/
def script304 : Script :=
  { tokenRes := fun _ => TokenResult.ok tokB
    sendRes := fun _ => SendResult.respond 304 true 7 }

/-- C6 counterexample: the claim says every non-2xx status other than
401/404/429 yields the generic base exception.  A 304 response does not:
`raise_for_status` does not fire below 400 in either client, so the body is
decoded and returned as a success. -/
theorem c6_status_304_not_generic :
    (Api.request script304 0 "GET" "/r" "eu" [] initSync).result = Except.ok 7
    ∧ (Api.request script304 0 "GET" "/r" "eu" [] initSync).result
        ≠ Except.error (Err.apiException 304)
    ∧ (AsyncApi.request script304 0 "GET" "/r" "eu" initAsync).result = Except.ok 7
    ∧ (AsyncApi.request script304 0 "GET" "/r" "eu" initAsync).result
        ≠ Except.error (Err.apiException 304) := by
  have h1 : (Api.request script304 0 "GET" "/r" "eu" [] initSync).result = Except.ok 7 := rfl
  have h2 : (AsyncApi.request script304 0 "GET" "/r" "eu" initAsync).result = Except.ok 7 := rfl
  refine ⟨h1, ?_, h2, ?_⟩
  · rw [h1]
    intro h
    exact Except.noConfusion h
  · rw [h2]
    intro h
    exact Except.noConfusion h

/-- An environment whose sends all return the given status with an
undecodable body. -/
def scriptStatus (st : Nat) : Script :=
  { tokenRes := fun _ => TokenResult.ok tokB
    sendRes := fun _ => SendResult.respond st false 0 }

/-- Witness for C6 at statuses 404, 429 and 500. -/
theorem c6_witness :
    ((Api.request (scriptStatus 404) 0 "GET" "/r" "eu" [] ⟨some tokB, 1, 0⟩).result
        = Except.error Err.resourceNotFound
      ∧ (AsyncApi.request (scriptStatus 404) 0 "GET" "/r" "eu" ⟨some tokB, 1, 0⟩).result
        = Except.error Err.resourceNotFound)
    ∧ ((Api.request (scriptStatus 429) 0 "GET" "/r" "eu" [] ⟨some tokB, 1, 0⟩).result
        = Except.error Err.rateLimit
      ∧ (AsyncApi.request (scriptStatus 429) 0 "GET" "/r" "eu" ⟨some tokB, 1, 0⟩).result
        = Except.error Err.rateLimit)
    ∧ ((Api.request (scriptStatus 500) 0 "GET" "/r" "eu" [] ⟨some tokB, 1, 0⟩).result
        = Except.error (Err.apiException 500)
      ∧ (AsyncApi.request (scriptStatus 500) 0 "GET" "/r" "eu" ⟨some tokB, 1, 0⟩).result
        = Except.error (Err.apiException 500))
    ∧ ((Api.request (scriptStatus 500) 0 "GET" "/r" "eu" [] ⟨some tokB, 1, 0⟩).inst.nFetch = 1
      ∧ (Api.request (scriptStatus 500) 0 "GET" "/r" "eu" [] ⟨some tokB, 1, 0⟩).inst.nSend = 1
      ∧ (AsyncApi.request (scriptStatus 500) 0 "GET" "/r" "eu" ⟨some tokB, 1, 0⟩).inst.nFetch
          = 1) := by
  have h404 := c6_status_classification_amended (scriptStatus 404) 0 "GET" "/r" "eu" []
    ⟨some tokB, 1, 0⟩ ⟨some tokB, 1, 0⟩ tokB 404 false 0 (by decide) rfl rfl (by decide) rfl rfl
  have h429 := c6_status_classification_amended (scriptStatus 429) 0 "GET" "/r" "eu" []
    ⟨some tokB, 1, 0⟩ ⟨some tokB, 1, 0⟩ tokB 429 false 0 (by decide) rfl rfl (by decide) rfl rfl
  have h500 := c6_status_classification_amended (scriptStatus 500) 0 "GET" "/r" "eu" []
    ⟨some tokB, 1, 0⟩ ⟨some tokB, 1, 0⟩ tokB 500 false 0 (by decide) rfl rfl (by decide) rfl rfl
  have hg := h500.2.2.1 (by norm_num) (by norm_num) (by norm_num) (by norm_num) (by norm_num)
  have hc := h500.2.2.2 (by norm_num)
  exact ⟨h404.1 rfl, h429.2.1 rfl, hg, hc.1, hc.2.1, hc.2.2.2.1⟩

/-! ### C2 -/

/-- C2 counterexample: the claim says the sync and async dispatchers behave
identically.  On the 401-then-401 trace they do not: the sync dispatcher
terminates with a raw `HTTPError` after one real token fetch, the async
dispatcher with `AuthenticationError` after two. -/
theorem c2_divergence_401 :
    (Api.request script401 0 "GET" "/r" "eu" [] initSync).result
        = Except.error (Err.rawHttpError 401)
    ∧ (AsyncApi.request script401 0 "GET" "/r" "eu" initAsync).result
        = Except.error Err.authentication
    ∧ (Api.request script401 0 "GET" "/r" "eu" [] initSync).result
        ≠ (AsyncApi.request script401 0 "GET" "/r" "eu" initAsync).result
    ∧ (Api.request script401 0 "GET" "/r" "eu" [] initSync).inst.nFetch
        ≠ (AsyncApi.request script401 0 "GET" "/r" "eu" initAsync).inst.nFetch := by
  have h1 : (Api.request script401 0 "GET" "/r" "eu" [] initSync).result
      = Except.error (Err.rawHttpError 401) := rfl
  have h2 : (AsyncApi.request script401 0 "GET" "/r" "eu" initAsync).result
      = Except.error Err.authentication := rfl
  refine ⟨h1, h2, ?_, by decide⟩
  rw [h1, h2]
  intro h
  injection h with h3
  exact absurd h3 (by decide)

/-- C2 (amended): the two dispatchers agree on invalid-region rejection and,
with a valid token, on the classification of every first-send outcome other
than a 401: a connection failure is `ApiConnectionError` in both, and any
response with status ≠ 401 (status < 600) is classified identically, with
no token request and exactly one send in both.  They diverge on the 401
refresh-retry path (see the counterexample) and on transport failures
during the token fetch. -/
theorem c2_sync_async_agree_amended
    (sc : Script) (now : Int) (method resource region : String)
    (cache : Cache) (si : SyncInst) (ai : AsyncInst) (t : Token)
    (hs : si.token = some t) (ha : ai.token = some t)
    (hv : ¬ t.expiresAt ≤ now + 60) (hn : si.nSend = ai.nSend) :
    (region ∉ validRegions →
        (Api.request sc now method resource region cache si).result
          = Except.error Err.invalidRegion
      ∧ (AsyncApi.request sc now method resource region ai).result
          = Except.error Err.invalidRegion)
    ∧ (region ∈ validRegions →
        (sc.sendRes si.nSend = SendResult.connFail →
            (Api.request sc now method resource region cache si).result
              = Except.error Err.apiConnection
          ∧ (AsyncApi.request sc now method resource region ai).result
              = Except.error Err.apiConnection)
        ∧ (∀ st jn b, sc.sendRes si.nSend = SendResult.respond st jn b →
            st ≠ 401 → st < 600 →
            (Api.request sc now method resource region cache si).result
              = (AsyncApi.request sc now method resource region ai).result
            ∧ (Api.request sc now method resource region cache si).inst.nFetch = si.nFetch
            ∧ (AsyncApi.request sc now method resource region ai).inst.nFetch = ai.nFetch
            ∧ (Api.request sc now method resource region cache si).inst.nSend = si.nSend + 1
            ∧ (AsyncApi.request sc now method resource region ai).inst.nSend
                = ai.nSend + 1)) := by
  refine ⟨fun h => ?_, fun hr => ⟨fun hsend => ?_, fun st jn b hsend h401 h6 => ?_⟩⟩
  · constructor <;> simp [Api.request, AsyncApi.request, h]
  · have hreqS : Api.request sc now method resource region cache si
        = Api.sendAndClassify sc region cache si := by
      unfold Api.request
      rw [if_pos hr, Api.ensure_valid sc now region cache si t hs hv]
    have hreqA : AsyncApi.request sc now method resource region ai
        = AsyncApi.sendAndClassify sc now region ai := by
      unfold AsyncApi.request
      rw [if_pos hr, AsyncApi.ensure_valid_async sc now region ai t ha hv]
    have hsendA : sc.sendRes ai.nSend = SendResult.connFail := hn ▸ hsend
    rw [hreqS, hreqA]
    unfold Api.sendAndClassify AsyncApi.sendAndClassify
    rw [hsend, hsendA]
    exact ⟨rfl, rfl⟩
  · have hreqS : Api.request sc now method resource region cache si
        = Api.sendAndClassify sc region cache si := by
      unfold Api.request
      rw [if_pos hr, Api.ensure_valid sc now region cache si t hs hv]
    have hreqA : AsyncApi.request sc now method resource region ai
        = AsyncApi.sendAndClassify sc now region ai := by
      unfold AsyncApi.request
      rw [if_pos hr, AsyncApi.ensure_valid_async sc now region ai t ha hv]
    have hsendA : sc.sendRes ai.nSend = SendResult.respond st jn b := hn ▸ hsend
    rw [hreqS, hreqA, Api.send_non401_cases sc region cache si st jn b hsend h401,
      AsyncApi.send_non401_cases_async sc now region ai st jn b hsendA h401]
    refine ⟨?_, rfl, rfl, rfl, rfl⟩
    by_cases h4 : 400 ≤ st
    · simp only [h4, h6, classifyAsync, h401, and_true, if_true, if_false, if_neg h401]
      split_ifs <;> rfl
    · simp [h4, h6]

/-- Witness for C2 at concrete inputs: an invalid region, a connection
failure, and a 500 response. -/
theorem c2_witness :
    ((Api.request scriptC4 0 "GET" "/r" "xx" [] ⟨some tokB, 1, 0⟩).result
        = Except.error Err.invalidRegion
      ∧ (AsyncApi.request scriptC4 0 "GET" "/r" "xx" ⟨some tokB, 1, 0⟩).result
        = Except.error Err.invalidRegion)
    ∧ ((Api.request scriptNetFail 0 "GET" "/r" "eu" [] ⟨some tokB, 1, 0⟩).result
        = Except.error Err.apiConnection
      ∧ (AsyncApi.request scriptNetFail 0 "GET" "/r" "eu" ⟨some tokB, 1, 0⟩).result
        = Except.error Err.apiConnection)
    ∧ (Api.request (scriptStatus 500) 0 "GET" "/r" "eu" [] ⟨some tokB, 1, 0⟩).result
        = (AsyncApi.request (scriptStatus 500) 0 "GET" "/r" "eu" ⟨some tokB, 1, 0⟩).result := by
  have hxx := c2_sync_async_agree_amended scriptC4 0 "GET" "/r" "xx" []
    ⟨some tokB, 1, 0⟩ ⟨some tokB, 1, 0⟩ tokB rfl rfl (by decide) rfl
  have hconn := c2_sync_async_agree_amended scriptNetFail 0 "GET" "/r" "eu" []
    ⟨some tokB, 1, 0⟩ ⟨some tokB, 1, 0⟩ tokB rfl rfl (by decide) rfl
  have hresp := c2_sync_async_agree_amended (scriptStatus 500) 0 "GET" "/r" "eu" []
    ⟨some tokB, 1, 0⟩ ⟨some tokB, 1, 0⟩ tokB rfl rfl (by decide) rfl
  exact ⟨hxx.1 (by decide), (hconn.2 (by decide)).1 rfl,
    ((hresp.2 (by decide)).2 500 false 0 rfl (by norm_num) (by norm_num)).1⟩

/-! ### C7 -/

/-- C7: the `method_cache` contract.  A hit returns the stored value with
no execution and no state change; a miss executes the wrapped function once
and stores the result only on success; a stored value is returned by the
next argument-equal call with no further execution; a failure leaves the
key unstored, so the next argument-equal call executes again; calls with
different keys each execute once. -/
theorem c7_method_cache_contract {σ : Type}
    (key : List Nat → String) (op : List Nat → σ → Except Unit Nat × σ)
    (args args2 : List Nat) (m : MemoState σ) :
    (∀ v, lookupKey (key args) m.cache = some v →
        method_cache key op args m = ⟨Except.ok v, m⟩)
    ∧ (∀ v s, lookupKey (key args) m.cache = none →
        op args m.inner = ⟨Except.ok v, s⟩ →
        (method_cache key op args m).1 = Except.ok v
        ∧ (method_cache key op args m).2.execCount = m.execCount + 1
        ∧ lookupKey (key args) (method_cache key op args m).2.cache = some v
        ∧ method_cache key op args (method_cache key op args m).2
            = ⟨Except.ok v, (method_cache key op args m).2⟩)
    ∧ (∀ e s, lookupKey (key args) m.cache = none →
        op args m.inner = ⟨Except.error e, s⟩ →
        (method_cache key op args m).1 = Except.error e
        ∧ (method_cache key op args m).2.execCount = m.execCount + 1
        ∧ lookupKey (key args) (method_cache key op args m).2.cache = none)
    ∧ (∀ v s v2 s2, key args ≠ key args2 →
        lookupKey (key args) m.cache = none →
        lookupKey (key args2) m.cache = none →
        op args m.inner = ⟨Except.ok v, s⟩ →
        op args2 s = ⟨Except.ok v2, s2⟩ →
        (method_cache key op args2 (method_cache key op args m).2).2.execCount
            = m.execCount + 2) := by
  refine ⟨fun v h => ?_, fun v s hmiss hop => ?_, fun e s hmiss hop => ?_,
    fun v s v2 s2 hne hmiss hmiss2 hop hop2 => ?_⟩
  · simp [method_cache, h]
  · refine ⟨?_, ?_, ?_, ?_⟩ <;> simp [method_cache, hmiss, hop, lookupKey]
  · refine ⟨?_, ?_, ?_⟩ <;> simp [method_cache, hmiss, hop]
  · simp [method_cache, hmiss, hmiss2, hop, hop2, lookupKey, hne]

/-- A concrete memoization key: the comma-separated decimal rendering of
the argument list. -/
def keyW (args : List Nat) : String :=
  String.join (args.map fun n => Nat.repr n ++ ",")

/-- A concrete wrapped operation over instance state `σ := Nat`: returns
the first argument plus the state, and bumps the state. -/
def opW (args : List Nat) (s : Nat) : Except Unit Nat × Nat :=
  ⟨Except.ok (args.headD 0 + s), s + 1⟩

/-- A concrete wrapped operation that always fails. -/
def opFailW (args : List Nat) (s : Nat) : Except Unit Nat × Nat :=
  ⟨Except.error (), s⟩

/-- Witness for C7 at concrete inputs: a pre-populated cache hit, a
miss-then-hit pair, an uncached failure, and two different-key calls. -/
theorem c7_witness :
    method_cache keyW opW [1] ⟨[(keyW [1], 7)], 0, 1⟩
        = ⟨Except.ok 7, ⟨[(keyW [1], 7)], 0, 1⟩⟩
    ∧ (method_cache keyW opW [1] ⟨[], 0, 0⟩).1 = Except.ok 1
    ∧ (method_cache keyW opW [1] ⟨[], 0, 0⟩).2.execCount = 1
    ∧ method_cache keyW opW [1] (method_cache keyW opW [1] ⟨[], 0, 0⟩).2
        = ⟨Except.ok 1, (method_cache keyW opW [1] ⟨[], 0, 0⟩).2⟩
    ∧ (method_cache keyW opFailW [1] ⟨[], 0, 0⟩).1 = Except.error ()
    ∧ lookupKey (keyW [1]) (method_cache keyW opFailW [1] ⟨[], 0, 0⟩).2.cache = none
    ∧ (method_cache keyW opW [2] (method_cache keyW opW [1] ⟨[], 0, 0⟩).2).2.execCount
        = 2 := by
  have h1 := (c7_method_cache_contract keyW opW [1] [2] ⟨[(keyW [1], 7)], 0, 1⟩).1 7
    (by simp [lookupKey])
  have h2 := (c7_method_cache_contract keyW opW [1] [2] ⟨[], 0, 0⟩).2.1 1 1 rfl rfl
  have h3 := (c7_method_cache_contract keyW opFailW [1] [2] ⟨[], 0, 0⟩).2.2.1 () 0 rfl rfl
  have h4 := (c7_method_cache_contract keyW opW [1] [2] ⟨[], 0, 0⟩).2.2.2 1 1 3 2
    (by decide) rfl rfl rfl rfl
  exact ⟨h1, h2.1, h2.2.1, h2.2.2.2, h3.1, h3.2.2, h4⟩

/-! ### C8 -/

/-- C8 counterexample: the claim says memoization entries are scoped to the
owning client instance.  They are not: the table lives in the decorator
closure, shared by every instance, and the key omits `self`.  Here instance
A (environment `scriptC4`) fetches a token for "eu"; a brand-new instance B
whose own authorization server REJECTS every token request (`scriptReject`)
then dispatches successfully with zero token requests of its own, acquiring
the token A stored. -/
theorem c8_cross_instance_hit :
    (Api.request scriptC4 0 "GET" "/r" "eu" [] initSync).cache
        = [(tokenFetchKey "eu", tokA)]
    ∧ (Api.get_client_credentials_token scriptReject "eu"
          (Api.request scriptC4 0 "GET" "/r" "eu" [] initSync).cache initSync).result
        = Except.ok tokA
    ∧ (Api.get_client_credentials_token scriptReject "eu"
          (Api.request scriptC4 0 "GET" "/r" "eu" [] initSync).cache initSync).inst.nFetch
        = 0
    ∧ (Api.request scriptReject 0 "GET" "/r" "eu"
          (Api.request scriptC4 0 "GET" "/r" "eu" [] initSync).cache initSync).result
        = Except.ok 0
    ∧ (Api.request scriptReject 0 "GET" "/r" "eu"
          (Api.request scriptC4 0 "GET" "/r" "eu" [] initSync).cache initSync).inst.nFetch
        = 0
    ∧ (Api.request scriptReject 0 "GET" "/r" "eu"
          (Api.request scriptC4 0 "GET" "/r" "eu" [] initSync).cache initSync).inst.token
        = some tokA :=
  ⟨rfl, rfl, rfl, rfl, rfl, rfl⟩

/-- C8 (amended): memoization entries are scoped to the decorated function,
not to the instance: once the shared table holds an entry for a region,
ANY instance — whatever its own state and whatever its own environment
would answer — gets the stored token from a memoized call, with no
execution of the wrapped function and no token request of its own. -/
theorem c8_cache_shared_across_instances
    (sc1 sc2 : Script) (now : Int) (method resource region : String)
    (cache : Cache) (i1 i2 : SyncInst) (tk : Token)
    (hhit : lookupKey (tokenFetchKey region) cache = some tk) :
    Api.get_client_credentials_token sc1 region cache i1 = ⟨Except.ok tk, cache, i1⟩
    ∧ Api.get_client_credentials_token sc2 region cache i2 = ⟨Except.ok tk, cache, i2⟩
    ∧ (Api.request sc2 now method resource region cache i2).inst.nFetch = i2.nFetch := by
  refine ⟨Api.fetch_hit sc1 region cache i1 tk hhit,
    Api.fetch_hit sc2 region cache i2 tk hhit, ?_⟩
  unfold Api.request
  by_cases hr : region ∈ validRegions
  · rw [if_pos hr]
    obtain ⟨t2, heq, hor⟩ := Api.ensure_hit sc2 now region cache i2 tk hhit
    rw [heq]
    simpa using (Api.send_hit sc2 region cache { i2 with token := some t2 } tk hhit).2.1
  · rw [if_neg hr]

/-- Witness for C8: a shared cache holding a token for "eu"; two distinct
fresh instances with different environments both get the stored token. -/
theorem c8_witness :
    Api.get_client_credentials_token scriptC4 "eu" [(tokenFetchKey "eu", tokA)] initSync
        = ⟨Except.ok tokA, [(tokenFetchKey "eu", tokA)], initSync⟩
    ∧ Api.get_client_credentials_token scriptReject "eu" [(tokenFetchKey "eu", tokA)] initSync
        = ⟨Except.ok tokA, [(tokenFetchKey "eu", tokA)], initSync⟩
    ∧ (Api.request scriptReject 0 "GET" "/r" "eu" [(tokenFetchKey "eu", tokA)]
          initSync).inst.nFetch = 0 :=
  c8_cache_shared_across_instances scriptC4 scriptReject 0 "GET" "/r" "eu"
    [(tokenFetchKey "eu", tokA)] initSync initSync tokA (by simp [lookupKey])

/-! ### Token provenance: the slot only ever holds complete
environment-supplied tokens -/

/-- The token value `tk` is available to the sync client from its
environment: some token request in the script returns it, or the shared
cache already stores it for this region. -/
abbrev tokSrc (sc : Script) (region : String) (cache : Cache) (tk : Token) : Prop :=
  (∃ n, sc.tokenRes n = TokenResult.ok tk) ∨ lookupKey (tokenFetchKey region) cache = some tk

/-- Provenance through the memoized token fetch: any token in the slot, in
the returned value, or stored in the cache for this region afterwards, is
either the slot's previous value or environment-supplied. -/
theorem Api.fetch_src (sc : Script) (region : String) (cache : Cache) (inst : SyncInst) :
    (∀ tk, (Api.get_client_credentials_token sc region cache inst).inst.token = some tk →
        inst.token = some tk ∨ tokSrc sc region cache tk)
    ∧ (∀ tk, (Api.get_client_credentials_token sc region cache inst).result = Except.ok tk →
        tokSrc sc region cache tk)
    ∧ (∀ tk, lookupKey (tokenFetchKey region)
          (Api.get_client_credentials_token sc region cache inst).cache = some tk →
        tokSrc sc region cache tk) := by
  unfold Api.get_client_credentials_token
  cases hl : lookupKey (tokenFetchKey region) cache with
  | some tok =>
    refine ⟨fun tk htk => Or.inl htk, fun tk htk => ?_, fun tk htk => Or.inr htk⟩
    have htk2 : tok = tk := Except.ok.inj htk
    exact Or.inr (htk2 ▸ hl)
  | none =>
    cases hf : sc.tokenRes inst.nFetch with
    | ok tok =>
      refine ⟨fun tk htk => ?_, fun tk htk => ?_, fun tk htk => ?_⟩
      · have htk2 : tok = tk := Option.some.inj htk
        exact Or.inr (Or.inl ⟨inst.nFetch, htk2 ▸ hf⟩)
      · have htk2 : tok = tk := Except.ok.inj htk
        exact Or.inl ⟨inst.nFetch, htk2 ▸ hf⟩
      · have htk2 : tok = tk := by simpa [lookupKey] using htk
        exact Or.inl ⟨inst.nFetch, htk2 ▸ hf⟩
    | rejected =>
      refine ⟨fun tk htk => Or.inl htk, fun tk htk => ?_, fun tk htk => Or.inr htk⟩
      exact absurd htk (by simp)
    | transportFail =>
      refine ⟨fun tk htk => Or.inl htk, fun tk htk => ?_, fun tk htk => Or.inr htk⟩
      exact absurd htk (by simp)

/-- The call-site assignment only moves the returned token into the slot. -/
theorem Api.install_src (o : FetchOut) :
    ∀ tk, (Api.installFetched o).inst.token = some tk →
      o.inst.token = some tk ∨ o.result = Except.ok tk := by
  obtain ⟨r, c, i⟩ := o
  cases r with
  | ok t =>
    intro tk htk
    have htk2 : t = tk := Option.some.inj htk
    exact Or.inr (by rw [htk2])
  | error e => exact fun tk htk => Or.inl htk

/-- The call-site assignment changes neither the cache nor the result. -/
theorem Api.install_fields (o : FetchOut) :
    (Api.installFetched o).cache = o.cache
    ∧ (Api.installFetched o).result = o.result := by
  obtain ⟨r, c, i⟩ := o
  cases r <;> simp [Api.installFetched]

/-- Provenance through the sync token-validity step. -/
theorem Api.ensure_src (sc : Script) (now : Int) (region : String)
    (cache : Cache) (inst : SyncInst) :
    (∀ tk, (Api.ensureToken sc now region cache inst).inst.token = some tk →
        inst.token = some tk ∨ tokSrc sc region cache tk)
    ∧ (∀ tk, lookupKey (tokenFetchKey region)
          (Api.ensureToken sc now region cache inst).cache = some tk →
        tokSrc sc region cache tk) := by
  have hrefresh :
      (∀ tk, (Api.installFetched
            (Api.get_client_credentials_token sc region cache inst)).inst.token = some tk →
          inst.token = some tk ∨ tokSrc sc region cache tk)
      ∧ (∀ tk, lookupKey (tokenFetchKey region)
            (Api.installFetched
              (Api.get_client_credentials_token sc region cache inst)).cache = some tk →
          tokSrc sc region cache tk) := by
    constructor
    · intro tk htk
      rcases Api.install_src _ tk htk with h | h
      · exact (Api.fetch_src sc region cache inst).1 tk h
      · exact Or.inr ((Api.fetch_src sc region cache inst).2.1 tk h)
    · intro tk htk
      rw [(Api.install_fields _).1] at htk
      exact (Api.fetch_src sc region cache inst).2.2 tk htk
  by_cases hnone : inst.token = none
  · rw [Api.ensureToken_none sc now region cache inst hnone]
    exact hrefresh
  · obtain ⟨t, ht⟩ := Option.ne_none_iff_exists'.mp hnone
    by_cases hexp : t.expiresAt ≤ now + 60
    · rw [Api.ensureToken_expired sc now region cache inst t ht hexp]
      exact hrefresh
    · rw [Api.ensure_valid sc now region cache inst t ht hexp]
      exact ⟨fun tk htk => Or.inl htk, fun tk htk => Or.inr htk⟩

/-- Provenance through the sync 401 retry handler. -/
theorem Api.retry_src (sc : Script) (region : String) (c1 : Cache) (i1 : SyncInst) :
    ∀ tk, (Api.retryOn401 sc region c1 i1).inst.token = some tk →
      i1.token = some tk ∨ tokSrc sc region c1 tk := by
  intro tk htk
  unfold Api.retryOn401 at htk
  rcases ho : Api.installFetched (Api.get_client_credentials_token sc region c1 i1)
    with ⟨r, c, i⟩
  rw [ho] at htk
  have hslot : i.token = some tk → i1.token = some tk ∨ tokSrc sc region c1 tk := by
    intro h2
    have h3 : (Api.installFetched
        (Api.get_client_credentials_token sc region c1 i1)).inst.token = some tk := by
      rw [ho]
      exact h2
    rcases Api.install_src _ tk h3 with h4 | h4
    · exact (Api.fetch_src sc region c1 i1).1 tk h4
    · exact Or.inr ((Api.fetch_src sc region c1 i1).2.1 tk h4)
  cases r with
  | error e2 => exact hslot htk
  | ok tok2 =>
    have htk2 : (Api.retrySend sc c i).inst.token = some tk := htk
    rw [(Api.retrySend_fields sc c i).2.1] at htk2
    exact hslot htk2

/-- Provenance through the sync send-and-classify phase. -/
theorem Api.send_src (sc : Script) (region : String) (cache : Cache) (inst : SyncInst) :
    ∀ tk, (Api.sendAndClassify sc region cache inst).inst.token = some tk →
      inst.token = some tk ∨ tokSrc sc region cache tk := by
  intro tk htk
  unfold Api.sendAndClassify at htk
  cases hs : sc.sendRes inst.nSend with
  | connFail =>
    rw [hs] at htk
    exact Or.inl htk
  | respond st j b =>
    simp only [hs] at htk
    split_ifs at htk with h1 h2
    · exact Api.retry_src sc region cache { inst with nSend := inst.nSend + 1 } tk htk
    all_goals exact Or.inl htk

/-- Provenance through a whole sync dispatch call. -/
theorem Api.request_src (sc : Script) (now : Int) (method resource region : String)
    (cache : Cache) (si : SyncInst) :
    ∀ tk, (Api.request sc now method resource region cache si).inst.token = some tk →
      si.token = some tk ∨ tokSrc sc region cache tk := by
  intro tk htk
  unfold Api.request at htk
  by_cases hr : region ∈ validRegions
  · rw [if_pos hr] at htk
    rcases ho : Api.ensureToken sc now region cache si with ⟨r, c1, i1⟩
    rw [ho] at htk
    have hens : i1.token = some tk → si.token = some tk ∨ tokSrc sc region cache tk := by
      intro h2
      have h3 : (Api.ensureToken sc now region cache si).inst.token = some tk := by
        rw [ho]
        exact h2
      exact (Api.ensure_src sc now region cache si).1 tk h3
    cases r with
    | error e => exact hens htk
    | ok t0 =>
      rcases Api.send_src sc region c1 i1 tk htk with h | h
      · exact hens h
      · rcases h with h | h
        · exact Or.inr (Or.inl h)
        · have h3 : lookupKey (tokenFetchKey region)
              (Api.ensureToken sc now region cache si).cache = some tk := by
            rw [ho]
            exact h
          exact Or.inr ((Api.ensure_src sc now region cache si).2 tk h3)
  · rw [if_neg hr] at htk
    exact Or.inl htk

/-- Provenance through the async refresh: any new slot value is the
complete token assembled from a fetched response and the current time. -/
theorem AsyncApi.refresh_src (sc : Script) (now : Int) (region : String) (ai : AsyncInst) :
    ∀ tk, (AsyncApi.refresh_token sc now region ai).2.token = some tk →
      ai.token = some tk
      ∨ ∃ tok2 n, sc.tokenRes n = TokenResult.ok tok2
          ∧ tk = ⟨tok2.accessToken, tok2.expiresIn, now + tok2.expiresIn⟩ := by
  intro tk htk
  unfold AsyncApi.refresh_token at htk
  cases hf : sc.tokenRes ai.nFetch with
  | ok tok2 =>
    rw [hf] at htk
    exact Or.inr ⟨tok2, ai.nFetch, hf, (Option.some.inj htk).symm⟩
  | rejected =>
    rw [hf] at htk
    exact Or.inl htk
  | transportFail =>
    rw [hf] at htk
    exact Or.inl htk

/-- The classification wrapper at the refresh call sites passes the
instance state through untouched. -/
theorem AsyncApi.tagRefresh_state (p : Except RefreshErr Token × AsyncInst) :
    (AsyncApi.tagRefresh p).2 = p.2 := by
  obtain ⟨r, i⟩ := p
  cases r with
  | ok t => rfl
  | error re => cases re <;> rfl

/-- With an empty slot the async validity step is the tagged refresh. -/
theorem AsyncApi.ensureToken_none_async (sc : Script) (now : Int) (region : String)
    (ai : AsyncInst) (h : ai.token = none) :
    AsyncApi.ensureToken sc now region ai
      = AsyncApi.tagRefresh (AsyncApi.refresh_token sc now region ai) := by
  unfold AsyncApi.ensureToken
  rw [h]

/-- With an expired token the async validity step is the tagged refresh. -/
theorem AsyncApi.ensureToken_expired_async (sc : Script) (now : Int) (region : String)
    (ai : AsyncInst) (t : Token)
    (h : ai.token = some t) (hexp : t.expiresAt ≤ now + 60) :
    AsyncApi.ensureToken sc now region ai
      = AsyncApi.tagRefresh (AsyncApi.refresh_token sc now region ai) := by
  unfold AsyncApi.ensureToken
  rw [h]
  simp [hexp]

/-- The retried async send never touches the token slot or the
token-request counter: only the send counter advances. -/
theorem AsyncApi.retrySend_fields_async (sc : Script) (i1 : AsyncInst) :
    (AsyncApi.retrySend sc i1).inst.token = i1.token
    ∧ (AsyncApi.retrySend sc i1).inst.nFetch = i1.nFetch
    ∧ (AsyncApi.retrySend sc i1).inst.nSend = i1.nSend + 1 := by
  unfold AsyncApi.retrySend
  cases h : sc.sendRes i1.nSend with
  | connFail => simp [h]
  | respond st j b =>
    simp only [h]
    split_ifs <;> simp

/-- The async validity step either leaves the instance untouched or leaves
exactly the state produced by the refresh. -/
theorem AsyncApi.ensure_state (sc : Script) (now : Int) (region : String) (ai : AsyncInst) :
    (AsyncApi.ensureToken sc now region ai).2 = ai
    ∨ (AsyncApi.ensureToken sc now region ai).2 = (AsyncApi.refresh_token sc now region ai).2 := by
  by_cases hnone : ai.token = none
  · rw [AsyncApi.ensureToken_none_async sc now region ai hnone, AsyncApi.tagRefresh_state]
    exact Or.inr rfl
  · obtain ⟨t, ht⟩ := Option.ne_none_iff_exists'.mp hnone
    by_cases hexp : t.expiresAt ≤ now + 60
    · rw [AsyncApi.ensureToken_expired_async sc now region ai t ht hexp, AsyncApi.tagRefresh_state]
      exact Or.inr rfl
    · rw [AsyncApi.ensure_valid_async sc now region ai t ht hexp]
      exact Or.inl rfl

/-- Provenance through the async validity step. -/
theorem AsyncApi.ensure_src_async (sc : Script) (now : Int) (region : String) (ai : AsyncInst) :
    ∀ tk, (AsyncApi.ensureToken sc now region ai).2.token = some tk →
      ai.token = some tk
      ∨ ∃ tok2 n, sc.tokenRes n = TokenResult.ok tok2
          ∧ tk = ⟨tok2.accessToken, tok2.expiresIn, now + tok2.expiresIn⟩ := by
  intro tk htk
  rcases AsyncApi.ensure_state sc now region ai with h | h
  · rw [h] at htk
    exact Or.inl htk
  · rw [h] at htk
    exact AsyncApi.refresh_src sc now region ai tk htk

/-- Provenance through the async 401 retry handler. -/
theorem AsyncApi.retry_src_async (sc : Script) (now : Int) (region : String) (ai : AsyncInst) :
    ∀ tk, (AsyncApi.retryOn401 sc now region ai).inst.token = some tk →
      ai.token = some tk
      ∨ ∃ tok2 n, sc.tokenRes n = TokenResult.ok tok2
          ∧ tk = ⟨tok2.accessToken, tok2.expiresIn, now + tok2.expiresIn⟩ := by
  intro tk htk
  unfold AsyncApi.retryOn401 at htk
  rcases ho : AsyncApi.refresh_token sc now region ai with ⟨r, i⟩
  rw [ho] at htk
  have hslot : i.token = some tk →
      ai.token = some tk
      ∨ ∃ tok2 n, sc.tokenRes n = TokenResult.ok tok2
          ∧ tk = ⟨tok2.accessToken, tok2.expiresIn, now + tok2.expiresIn⟩ := by
    intro h2
    have h3 : (AsyncApi.refresh_token sc now region ai).2.token = some tk := by
      rw [ho]
      exact h2
    exact AsyncApi.refresh_src sc now region ai tk h3
  cases r with
  | error re => cases re <;> exact hslot htk
  | ok t2 =>
    have htk2 : (AsyncApi.retrySend sc i).inst.token = some tk := htk
    rw [(AsyncApi.retrySend_fields_async sc i).1] at htk2
    exact hslot htk2

/-- Provenance through the async send-and-classify phase. -/
theorem AsyncApi.send_src_async (sc : Script) (now : Int) (region : String) (ai : AsyncInst) :
    ∀ tk, (AsyncApi.sendAndClassify sc now region ai).inst.token = some tk →
      ai.token = some tk
      ∨ ∃ tok2 n, sc.tokenRes n = TokenResult.ok tok2
          ∧ tk = ⟨tok2.accessToken, tok2.expiresIn, now + tok2.expiresIn⟩ := by
  intro tk htk
  unfold AsyncApi.sendAndClassify at htk
  cases hs : sc.sendRes ai.nSend with
  | connFail =>
    rw [hs] at htk
    exact Or.inl htk
  | respond st j b =>
    simp only [hs] at htk
    split_ifs at htk with h1
    · exact AsyncApi.retry_src_async sc now region { ai with nSend := ai.nSend + 1 } tk htk
    all_goals exact Or.inl htk

/-- Provenance through a whole async dispatch call. -/
theorem AsyncApi.request_src_async (sc : Script) (now : Int) (method resource region : String)
    (ai : AsyncInst) :
    ∀ tk, (AsyncApi.request sc now method resource region ai).inst.token = some tk →
      ai.token = some tk
      ∨ ∃ tok2 n, sc.tokenRes n = TokenResult.ok tok2
          ∧ tk = ⟨tok2.accessToken, tok2.expiresIn, now + tok2.expiresIn⟩ := by
  intro tk htk
  unfold AsyncApi.request at htk
  by_cases hr : region ∈ validRegions
  · rw [if_pos hr] at htk
    rcases ho : AsyncApi.ensureToken sc now region ai with ⟨r, i1⟩
    rw [ho] at htk
    have hens : i1.token = some tk →
        ai.token = some tk
        ∨ ∃ tok2 n, sc.tokenRes n = TokenResult.ok tok2
            ∧ tk = ⟨tok2.accessToken, tok2.expiresIn, now + tok2.expiresIn⟩ := by
      intro h2
      have h3 : (AsyncApi.ensureToken sc now region ai).2.token = some tk := by
        rw [ho]
        exact h2
      exact AsyncApi.ensure_src_async sc now region ai tk h3
    cases r with
    | error e => exact hens htk
    | ok t0 =>
      rcases AsyncApi.send_src_async sc now region i1 tk htk with h | h
      · exact hens h
      · exact Or.inr h
  · rw [if_neg hr] at htk
    exact Or.inl htk

/-! ### C9 -/

/-- C9: the token slot is only ever replaced wholesale.  After any dispatch
call, every token found in the slot is either the slot's previous value
(unchanged) or a complete token supplied by the environment: in the sync
client a token returned by some token request or already stored in the
shared cache; in the async client a token assembled, before any suspension
point, from a fetched response together with `expires_at = now +
expires_in`.  In particular the new slot value never depends on any field
of the previously installed token. -/
theorem c9_token_wholesale_replacement
    (sc : Script) (now : Int) (method resource region : String)
    (cache : Cache) (si : SyncInst) (ai : AsyncInst) :
    (∀ tk, (Api.request sc now method resource region cache si).inst.token = some tk →
        si.token = some tk
        ∨ (∃ n, sc.tokenRes n = TokenResult.ok tk)
        ∨ lookupKey (tokenFetchKey region) cache = some tk)
    ∧ (∀ tk, (AsyncApi.request sc now method resource region ai).inst.token = some tk →
        ai.token = some tk
        ∨ ∃ tok2 n, sc.tokenRes n = TokenResult.ok tok2
            ∧ tk = ⟨tok2.accessToken, tok2.expiresIn, now + tok2.expiresIn⟩) :=
  ⟨fun tk htk => Api.request_src sc now method resource region cache si tk htk,
    fun tk htk => AsyncApi.request_src_async sc now method resource region ai tk htk⟩

/-- Witness for C9 on the 401-then-401 trace: the sync slot ends with a
script-supplied token, the async slot with a complete reassembled token. -/
theorem c9_witness :
    (Api.request script401 0 "GET" "/r" "eu" [] initSync).inst.token = some tokA
    ∧ (initSync.token = some tokA
        ∨ (∃ n, script401.tokenRes n = TokenResult.ok tokA)
        ∨ lookupKey (tokenFetchKey "eu") [] = some tokA)
    ∧ (AsyncApi.request script401 0 "GET" "/r" "eu" initAsync).inst.token
        = some ⟨tokA.accessToken, tokA.expiresIn, 0 + tokA.expiresIn⟩
    ∧ (initAsync.token = some ⟨tokA.accessToken, tokA.expiresIn, 0 + tokA.expiresIn⟩
        ∨ ∃ tok2 n, script401.tokenRes n = TokenResult.ok tok2
            ∧ (⟨tokA.accessToken, tokA.expiresIn, 0 + tokA.expiresIn⟩ : Token)
                = ⟨tok2.accessToken, tok2.expiresIn, 0 + tok2.expiresIn⟩) := by
  have h := c9_token_wholesale_replacement script401 0 "GET" "/r" "eu" [] initSync initAsync
  exact ⟨rfl, h.1 tokA rfl, rfl, h.2 ⟨tokA.accessToken, tokA.expiresIn, 0 + tokA.expiresIn⟩ rfl⟩
